import Mathlib

/-!
# Verification of the `ratelim` token-bucket rate limiter

A shallow embedding of the token-bucket components of the `ratelim`
library (`tokenbucket.go` and `tokenbucketqueue.go`) together with
theorems settling the specification claims about them.

Go `int64` counters are modelled as `Int`; the compare-and-swap retry
loops of the source are modelled by their sequential effect (in the
interleaved model each operation is one atomic step, so a CAS taken
immediately after its load always succeeds).  Channel sends are modelled
by counters of signals sent.
-/

namespace Ratelim

/-- State of a `TBucket` (`tokenbucket.go`).  The fields mirror the Go
struct: `tokens` is the current token count, `bsize` the maximum bucket
size, `burst` the number of tokens added per tick, and `closed`/`paused`
the two control flags (Go `uint32` used as booleans). The `ticker`
and the channels of the Go struct carry no retained state beyond the
flags and are modelled at the operation level. -/
structure TBucket where
  tokens : Int
  bsize : Int
  burst : Int
  closed : Bool
  paused : Bool
deriving DecidableEq, Repr

/-- `NewBurstyTBucket` (`tokenbucket.go`): clamp `bsize < 1` to `1` and
`burst < 1` to `1`, start full (`tokens = bsize`), flags clear. -/
def NewBurstyTBucket (bsize burst : Int) : TBucket :=
  { tokens := if bsize < 1 then 1 else bsize
    bsize := if bsize < 1 then 1 else bsize
    burst := if burst < 1 then 1 else burst
    closed := false
    paused := false }

/-- `NewTBucket` (`tokenbucket.go`): equivalent to `NewBurstyTBucket bsize 1`. -/
def NewTBucket (bsize : Int) : TBucket :=
  NewBurstyTBucket bsize 1

/-- One refill attempt of the `tick` goroutine (`tokenbucket.go`, the
`<-tb.ticker.C` branch): if `tokens < bsize` then add `burst` (the Go
code performs `toks + tb.burst` with no clamping), otherwise leave the
count unchanged. -/
def TBucket.refill (tb : TBucket) : TBucket :=
  if tb.tokens < tb.bsize then { tb with tokens := tb.tokens + tb.burst } else tb

/-- One timer tick as observed through the `tick` goroutine: the refill
runs only while the goroutine is in its outer `select`, i.e. while the
bucket is neither closed (goroutine returned) nor paused (goroutine
parked in the inner `select`). -/
def TBucket.tick (tb : TBucket) : TBucket :=
  if tb.closed || tb.paused then tb else tb.refill

/-- `Empty` (`tokenbucket.go`): store 0 into `tokens`. -/
def TBucket.empty (tb : TBucket) : TBucket :=
  { tb with tokens := 0 }

/-- `Fill` (`tokenbucket.go`): store `bsize` into `tokens`. -/
def TBucket.fill (tb : TBucket) : TBucket :=
  { tb with tokens := tb.bsize }

/-- `FillTo` (`tokenbucket.go`): store `n` into `tokens` (no clamp). -/
def TBucket.fillTo (n : Int) (tb : TBucket) : TBucket :=
  { tb with tokens := n }

/-- `GetTok` (`tokenbucket.go`): if `tokens > 0`, CAS down by one and
return true; if the load sees `tokens <= 0`, return false. -/
def TBucket.GetTok (tb : TBucket) : Bool × TBucket :=
  if tb.tokens > 0 then (true, { tb with tokens := tb.tokens - 1 }) else (false, tb)

/-- `GetToks` (`tokenbucket.go`): treat `n < 1` as `n = 1`; if
`tokens >= n`, CAS down by `n` and return true, else return false. -/
def TBucket.GetToks (n : Int) (tb : TBucket) : Bool × TBucket :=
  let n := if n < 1 then 1 else n
  if tb.tokens ≥ n then (true, { tb with tokens := tb.tokens - n }) else (false, tb)

/-- `IsClosed` (`tokenbucket.go`): read of the `closed` flag. -/
def TBucket.IsClosed (tb : TBucket) : Bool := tb.closed

/-- `IsPaused` (`tokenbucket.go`): read of the `paused` flag. -/
def TBucket.IsPaused (tb : TBucket) : Bool := tb.paused

/-- `Close` (`tokenbucket.go`): CAS `closed` from 0 to 1; on success
send one signal on `cch` and return true, otherwise return false.  The
result is `(returned value, new state, signals sent by this call)`. -/
def TBucket.Close (tb : TBucket) : Bool × TBucket × Nat :=
  if tb.closed then (false, tb, 0) else (true, { tb with closed := true }, 1)

/-- `Pause` (`tokenbucket.go`): fail if `IsClosed` or the CAS of
`paused` from 0 to 1 fails; on success send one signal on `prch`. -/
def TBucket.Pause (tb : TBucket) : Bool × TBucket × Nat :=
  if tb.IsClosed || tb.paused then (false, tb, 0)
  else (true, { tb with paused := true }, 1)

/-- `Resume` (`tokenbucket.go`): fail if `IsClosed` or the CAS of
`paused` from 1 to 0 fails; on success send one signal on `prch`. -/
def TBucket.Resume (tb : TBucket) : Bool × TBucket × Nat :=
  if tb.IsClosed || !tb.paused then (false, tb, 0)
  else (true, { tb with paused := false }, 1)

/-- State of a `TBucketQ` (`tokenbucketqueue.go`).  Mirrors the Go
struct: `burst` is the maximum bucket size, `maxq` the queue capacity,
`qcnt` the number of waiting requests, `toks` the token count.  `served`
counts the handoff signals sent on `qch` (each such send wakes exactly
one waiter blocked in `GetTok`). -/
structure TBucketQ where
  burst : Int
  maxq : Int
  qcnt : Int
  toks : Int
  served : Nat
deriving DecidableEq, Repr

/-- `NewTBucketQ` (`tokenbucketqueue.go`): clamp `burst <= 0` to `1`
and `maxq < 0` to `0`; the bucket starts full (`toks = burst`) with an
empty queue. -/
def NewTBucketQ (burst maxq : Int) : TBucketQ :=
  { burst := if burst ≤ 0 then 1 else burst
    maxq := if maxq < 0 then 0 else maxq
    qcnt := 0
    toks := if burst ≤ 0 then 1 else burst
    served := 0 }

/-- One iteration of the `tick` goroutine of `tokenbucketqueue.go`: if
`qcnt > 0`, send one handoff signal on `qch`, decrement `qcnt`, and
`continue` (no token is added to the bucket on that tick); otherwise
add one token clamped below `burst`. -/
def TBucketQ.tick (q : TBucketQ) : TBucketQ :=
  if q.qcnt > 0 then { q with served := q.served + 1, qcnt := q.qcnt - 1 }
  else if q.toks < q.burst then { q with toks := q.toks + 1 }
  else q

/-- Outcome of `TBucketQ.GetTok` for the calling goroutine: a token was
taken from the bucket, the caller reserved a queue slot and blocks on
`qch`, or the call returned false immediately. -/
inductive QOutcome where
  | token
  | queued
  | rejected
deriving DecidableEq, Repr

/-- `GetTok` (`tokenbucketqueue.go`): take a token if `toks > 0`;
otherwise reserve a queue slot if `qcnt < maxq` (the caller then blocks
on `qch`); otherwise return false immediately. -/
def TBucketQ.GetTok (q : TBucketQ) : QOutcome × TBucketQ :=
  if q.toks > 0 then (QOutcome.token, { q with toks := q.toks - 1 })
  else if q.qcnt < q.maxq then (QOutcome.queued, { q with qcnt := q.qcnt + 1 })
  else (QOutcome.rejected, q)

/-- The operations of `tokenbucket.go` that the capacity-invariant claim
ranges over (`FillTo`, the explicit escape hatch, excluded). -/
inductive TBOp where
  | getTok
  | getToks (n : Int)
  | emptyOp
  | fillOp
  | pause
  | resume
  | close
  | tick
deriving DecidableEq, Repr

/-- Effect of one `TBucket` operation on the bucket state (returned
booleans and signal counts discarded). -/
def TBucket.apply (tb : TBucket) : TBOp → TBucket
  | TBOp.getTok => tb.GetTok.2
  | TBOp.getToks n => (tb.GetToks n).2
  | TBOp.emptyOp => tb.empty
  | TBOp.fillOp => tb.fill
  | TBOp.pause => tb.Pause.2.1
  | TBOp.resume => tb.Resume.2.1
  | TBOp.close => tb.Close.2.1
  | TBOp.tick => tb.tick

/-- Run a sequence of `TBucket` operations from a state. -/
def TBucket.run (tb : TBucket) (ops : List TBOp) : TBucket :=
  ops.foldl TBucket.apply tb

/-- C9: constructors never fail and clamp out-of-range parameters. -/
theorem c9_constructor_clamps (bsize burst maxq : Int) :
    (NewBurstyTBucket bsize burst).bsize = max bsize 1 ∧
    (NewBurstyTBucket bsize burst).burst = max burst 1 ∧
    (NewBurstyTBucket bsize burst).tokens = (NewBurstyTBucket bsize burst).bsize ∧
    (NewBurstyTBucket bsize burst).closed = false ∧
    (NewBurstyTBucket bsize burst).paused = false ∧
    (NewTBucketQ burst maxq).burst = max burst 1 ∧
    (NewTBucketQ burst maxq).maxq = max maxq 0 ∧
    (NewTBucketQ burst maxq).toks = (NewTBucketQ burst maxq).burst ∧
    (NewTBucketQ burst maxq).qcnt = 0 := by
  refine ⟨?_, ?_, rfl, rfl, rfl, ?_, ?_, rfl, rfl⟩ <;>
    · simp only [NewBurstyTBucket, NewTBucketQ]
      split <;> omega

/-- C10: `GetTok` and `GetToks 1` agree on every state: same boolean
result and same final state. -/
theorem c10_getTok_refines_getToks (tb : TBucket) :
    tb.GetTok = tb.GetToks 1 := by
  simp only [TBucket.GetTok, TBucket.GetToks]
  norm_num
  by_cases h : 0 < tb.tokens
  · rw [if_pos h, if_pos (by omega : tb.tokens ≥ 1)]
  · rw [if_neg h, if_neg (by omega : ¬tb.tokens ≥ 1)]

/-- C6: `GetToks n` (with `n < 1` treated as `n = 1`, i.e. an effective
request of `max n 1`) is all-or-nothing: it returns true and removes
exactly the full requested amount when that amount is available, and
otherwise returns false and leaves the state unchanged; starting from a
non-negative count it never leaves the count negative. -/
theorem c6_getToks_all_or_nothing (n : Int) (tb : TBucket) (h : 0 ≤ tb.tokens) :
    tb.GetToks n =
      (if tb.tokens ≥ max n 1 then (true, { tb with tokens := tb.tokens - max n 1 })
       else (false, tb)) ∧
    0 ≤ (tb.GetToks n).2.tokens := by
  have hif : (if n < 1 then (1 : Int) else n) = max n 1 := by
    split <;> omega
  constructor
  · simp only [TBucket.GetToks, hif]
  · simp only [TBucket.GetToks, hif]
    split
    · next hge => simp only []; omega
    · exact h

/-- Witness for C6 at `n = 2` on a fresh bucket of size 5. -/
theorem c6_getToks_all_or_nothing_witness :
    0 ≤ (NewTBucket 5).tokens ∧
    ((NewTBucket 5).GetToks 2 =
      (if (NewTBucket 5).tokens ≥ max 2 1
       then (true, { NewTBucket 5 with tokens := (NewTBucket 5).tokens - max 2 1 })
       else (false, NewTBucket 5)) ∧
     0 ≤ ((NewTBucket 5).GetToks 2).2.tokens) :=
  ⟨by decide, c6_getToks_all_or_nothing 2 (NewTBucket 5) (by decide)⟩

/-- C7: `TBucketQ.GetTok` takes a token when one is available; on an
empty bucket it reserves a queue slot exactly when `qcnt < maxq` (and
the caller then blocks), and otherwise is rejected immediately; with
`maxQueue = 0` a call on an empty bucket is always rejected
immediately. -/
theorem c7_getTok_queue_or_reject (q : TBucketQ) (h : 0 ≤ q.qcnt) :
    q.GetTok =
      (if 0 < q.toks then (QOutcome.token, { q with toks := q.toks - 1 })
       else if q.qcnt < q.maxq then (QOutcome.queued, { q with qcnt := q.qcnt + 1 })
       else (QOutcome.rejected, q)) ∧
    (q.maxq = 0 → q.toks ≤ 0 → q.GetTok = (QOutcome.rejected, q)) := by
  constructor
  · simp only [TBucketQ.GetTok]
  · intro hmq htoks
    simp only [TBucketQ.GetTok]
    rw [if_neg (by omega), if_neg (by omega)]

/-- Witness for C7 on a reachable drained state with an empty queue and
queueing disabled (`maxq = 0`): the call is rejected immediately. -/
theorem c7_getTok_queue_or_reject_witness :
    0 ≤ (TBucketQ.mk 1 0 0 0 0).qcnt ∧
    ((TBucketQ.mk 1 0 0 0 0).GetTok =
      (if 0 < (TBucketQ.mk 1 0 0 0 0).toks
       then (QOutcome.token, { TBucketQ.mk 1 0 0 0 0 with toks := (TBucketQ.mk 1 0 0 0 0).toks - 1 })
       else if (TBucketQ.mk 1 0 0 0 0).qcnt < (TBucketQ.mk 1 0 0 0 0).maxq
       then (QOutcome.queued, { TBucketQ.mk 1 0 0 0 0 with qcnt := (TBucketQ.mk 1 0 0 0 0).qcnt + 1 })
       else (QOutcome.rejected, TBucketQ.mk 1 0 0 0 0)) ∧
     ((TBucketQ.mk 1 0 0 0 0).maxq = 0 → (TBucketQ.mk 1 0 0 0 0).toks ≤ 0 →
       (TBucketQ.mk 1 0 0 0 0).GetTok = (QOutcome.rejected, TBucketQ.mk 1 0 0 0 0))) :=
  ⟨by decide, c7_getTok_queue_or_reject (TBucketQ.mk 1 0 0 0 0) (by decide)⟩

/-- C2 (code bug): on the open bucket `NewBurstyTBucket 2 5` after one
`GetTok` (so `tokens = 1 ≤ bsize = 2`), a single refill tick sets the
count to `1 + 5 = 6`, not `min 2 (1 + 5) = 2`: the source adds `burst`
without clamping, so one tick overshoots `bsize`. -/
theorem c2_tick_does_not_clamp :
    (NewBurstyTBucket 2 5).GetTok.2.closed = false ∧
    (NewBurstyTBucket 2 5).GetTok.2.paused = false ∧
    (NewBurstyTBucket 2 5).GetTok.2.tokens = 1 ∧
    (NewBurstyTBucket 2 5).GetTok.2.bsize = 2 ∧
    (NewBurstyTBucket 2 5).GetTok.2.tick.tokens = 6 ∧
    min ((NewBurstyTBucket 2 5).GetTok.2.bsize)
        ((NewBurstyTBucket 2 5).GetTok.2.tokens + (NewBurstyTBucket 2 5).GetTok.2.burst) = 2 ∧
    ¬ (NewBurstyTBucket 2 5).GetTok.2.tick.tokens ≤ (NewBurstyTBucket 2 5).GetTok.2.bsize := by
  decide

/-- C1 (code bug): the capacity invariant `0 ≤ tokens ≤ bucketSize`
fails on a reachable state: from the fresh bucket `NewBurstyTBucket 2 5`
the operation sequence `GetTok; tick` (no `FillTo`) leaves `tokens = 6`
above `bsize = 2`, and the overshoot persists across further ticks. -/
theorem c1_capacity_invariant_violated :
    ((NewBurstyTBucket 2 5).run [TBOp.getTok, TBOp.tick]).tokens = 6 ∧
    ((NewBurstyTBucket 2 5).run [TBOp.getTok, TBOp.tick]).bsize = 2 ∧
    ¬ ((NewBurstyTBucket 2 5).run [TBOp.getTok, TBOp.tick]).tokens ≤
        ((NewBurstyTBucket 2 5).run [TBOp.getTok, TBOp.tick]).bsize ∧
    ((NewBurstyTBucket 2 5).run [TBOp.getTok, TBOp.tick, TBOp.tick, TBOp.tick]).tokens = 6 := by
  decide

/-- Run `m` sequential `GetTok` calls, collecting the returned booleans
in order, together with the final state. -/
def getTokRun : Nat → TBucket → List Bool × TBucket
  | 0, tb => ([], tb)
  | m + 1, tb =>
      (tb.GetTok.1 :: (getTokRun m tb.GetTok.2).1, (getTokRun m tb.GetTok.2).2)

/-- Draining exactly the available count: `m` calls on a bucket holding
`m` tokens all succeed and leave the count at 0. -/
theorem getTokRun_drain (m : Nat) (tb : TBucket) (h : tb.tokens = (m : Int)) :
    getTokRun m tb = (List.replicate m true, { tb with tokens := 0 }) := by
  induction m generalizing tb with
  | zero =>
      cases tb
      simp_all [getTokRun]
  | succ m ih =>
      have hpos : 0 < tb.tokens := by omega
      simp only [getTokRun, TBucket.GetTok, if_pos hpos]
      rw [ih { tb with tokens := tb.tokens - 1 } (by simp; omega)]
      simp [List.replicate_succ]

/-- Calls on an exhausted bucket all fail and change nothing. -/
theorem getTokRun_exhausted (k : Nat) (tb : TBucket) (h : tb.tokens = 0) :
    getTokRun k tb = (List.replicate k false, tb) := by
  induction k with
  | zero => simp [getTokRun]
  | succ k ih =>
      simp only [getTokRun, TBucket.GetTok, if_neg (by omega : ¬ tb.tokens > 0)]
      rw [ih]
      simp [List.replicate_succ]

/-- A run of `m + k` calls is the run of `m` calls followed by a run of
`k` calls from the intermediate state. -/
theorem getTokRun_add (m k : Nat) (tb : TBucket) :
    getTokRun (m + k) tb =
      ((getTokRun m tb).1 ++ (getTokRun k (getTokRun m tb).2).1,
        (getTokRun k (getTokRun m tb).2).2) := by
  induction m generalizing tb with
  | zero => simp [getTokRun]
  | succ m ih =>
      rw [Nat.succ_add]
      simp only [getTokRun]
      rw [ih]
      simp

/-- C8: on a fresh `TBucket(n, 1, d)` with `n ≥ 1` and no intervening
refill tick, `n + k` sequential `GetTok` calls yield exactly `n`
successes followed by `k` failures and leave the token count at 0. -/
theorem c8_exhaustion (n k : Nat) (hn : 1 ≤ n) (hk : 0 < k) :
    getTokRun (n + k) (NewTBucket (n : Int)) =
      (List.replicate n true ++ List.replicate k false,
        { NewTBucket (n : Int) with tokens := 0 }) := by
  have hfresh : (NewTBucket (n : Int)).tokens = (n : Int) := by
    simp only [NewTBucket, NewBurstyTBucket]
    rw [if_neg (by omega)]
  rw [getTokRun_add, getTokRun_drain n _ hfresh, getTokRun_exhausted k _ (by simp)]

/-- Witness for C8 at `n = 3`, `k = 2`. -/
theorem c8_exhaustion_witness :
    1 ≤ 3 ∧ 0 < 2 ∧
    getTokRun (3 + 2) (NewTBucket ((3 : Nat) : Int)) =
      (List.replicate 3 true ++ List.replicate 2 false,
        { NewTBucket ((3 : Nat) : Int) with tokens := 0 }) :=
  ⟨by decide, by decide, c8_exhaustion 3 2 (by decide) (by decide)⟩

/-- The state-mutating operations `tokenbucketqueue.go` defines on a
`TBucketQ`: a `GetTok` call and a timer tick of its `tick` goroutine.
The file defines no other operation on the type. -/
inductive QOp where
  | getTok
  | tick
deriving DecidableEq, Repr

/-- Effect of one `TBucketQ` operation on the state. -/
def TBucketQ.apply (q : TBucketQ) : QOp → TBucketQ
  | QOp.getTok => q.GetTok.2
  | QOp.tick => q.tick

/-- Run a sequence of `TBucketQ` operations from a state. -/
def TBucketQ.run (q : TBucketQ) (ops : List QOp) : TBucketQ :=
  ops.foldl TBucketQ.apply q

/-- C3 counterexample: on the reachable `TBucketQ` state with capacity
3 and 2 waiters queued (fresh `NewTBucketQ 3 5` drained by three
`GetTok` calls, then two more that queue), the claim predicts that one
tick sends both waiters a signal and adds the remaining `3 - 2 = 1`
token to the bucket; the code's tick serves a single waiter and adds
nothing. -/
theorem c3_counterexample :
    ((NewTBucketQ 3 5).run [QOp.getTok, QOp.getTok, QOp.getTok, QOp.getTok, QOp.getTok]).qcnt = 2 ∧
    ((NewTBucketQ 3 5).run [QOp.getTok, QOp.getTok, QOp.getTok, QOp.getTok, QOp.getTok]).toks = 0 ∧
    ((NewTBucketQ 3 5).run [QOp.getTok, QOp.getTok, QOp.getTok, QOp.getTok, QOp.getTok]).served = 0 ∧
    ¬ (((NewTBucketQ 3 5).run [QOp.getTok, QOp.getTok, QOp.getTok, QOp.getTok, QOp.getTok]).tick.served = 2 ∧
       ((NewTBucketQ 3 5).run [QOp.getTok, QOp.getTok, QOp.getTok, QOp.getTok, QOp.getTok]).tick.qcnt = 0 ∧
       ((NewTBucketQ 3 5).run [QOp.getTok, QOp.getTok, QOp.getTok, QOp.getTok, QOp.getTok]).tick.toks = 1) := by
  decide

/-- C3 as amended: on a tick with at least one waiter queued, exactly
one token-handoff signal is sent and `qcnt` is decremented once, and no
token is added to the bucket on that tick, regardless of how many
waiters are queued or what the capacity is; tokens are only added (one
per tick, below capacity) on a tick with no waiters. -/
theorem c3_tick_serves_one_waiter (q : TBucketQ) (h : 0 < q.qcnt) :
    q.tick = { q with served := q.served + 1, qcnt := q.qcnt - 1 } ∧
    q.tick.toks = q.toks := by
  constructor
  · simp only [TBucketQ.tick, if_pos h]
  · simp only [TBucketQ.tick, if_pos h]

/-- Witness for the amended C3 on the same reachable two-waiter state. -/
theorem c3_tick_serves_one_waiter_witness :
    0 < ((NewTBucketQ 3 5).run [QOp.getTok, QOp.getTok, QOp.getTok, QOp.getTok, QOp.getTok]).qcnt ∧
    (((NewTBucketQ 3 5).run [QOp.getTok, QOp.getTok, QOp.getTok, QOp.getTok, QOp.getTok]).tick =
      { (NewTBucketQ 3 5).run [QOp.getTok, QOp.getTok, QOp.getTok, QOp.getTok, QOp.getTok] with
          served := ((NewTBucketQ 3 5).run [QOp.getTok, QOp.getTok, QOp.getTok, QOp.getTok, QOp.getTok]).served + 1,
          qcnt := ((NewTBucketQ 3 5).run [QOp.getTok, QOp.getTok, QOp.getTok, QOp.getTok, QOp.getTok]).qcnt - 1 } ∧
     ((NewTBucketQ 3 5).run [QOp.getTok, QOp.getTok, QOp.getTok, QOp.getTok, QOp.getTok]).tick.toks =
       ((NewTBucketQ 3 5).run [QOp.getTok, QOp.getTok, QOp.getTok, QOp.getTok, QOp.getTok]).toks) :=
  ⟨by decide, c3_tick_serves_one_waiter _ (by decide)⟩

/-- C4 counterexample: `tokenbucketqueue.go` gives `TBucketQ` no
pause/close operation at all.  On the reachable drained state of
`NewTBucketQ 2 0`, no operation the file defines on the type stops
replenishment: after any one of them, the next tick still adds a token
— contradicting the existence of a `Pause` that stops replenishment or
a `Close` that permanently terminates the refill process. -/
theorem c4_counterexample :
    ¬ ∃ op : QOp,
      (((NewTBucketQ 2 0).run [QOp.getTok, QOp.getTok]).apply op).tick.toks =
        (((NewTBucketQ 2 0).run [QOp.getTok, QOp.getTok]).apply op).toks := by
  rintro ⟨op, h⟩
  cases op <;> exact absurd h (by decide)

/-- C4 as amended: `TBucketQ` has no lifecycle control: after any
sequence of the operations the source defines on it, its refill process
is still active — a tick from any waiter-free state below capacity
always adds a token.  (Only `TBucket` exposes the
pause/resume/close contract.) -/
theorem c4_no_lifecycle_on_tbucketq (burst maxq : Int) (ops : List QOp)
    (h1 : ((NewTBucketQ burst maxq).run ops).qcnt ≤ 0)
    (h2 : ((NewTBucketQ burst maxq).run ops).toks < ((NewTBucketQ burst maxq).run ops).burst) :
    ((NewTBucketQ burst maxq).run ops).tick.toks =
      ((NewTBucketQ burst maxq).run ops).toks + 1 := by
  simp only [TBucketQ.tick, if_neg (by omega : ¬ 0 < ((NewTBucketQ burst maxq).run ops).qcnt),
    if_pos h2]

/-- Witness for the amended C4: after a single `GetTok` on a fresh
`NewTBucketQ 2 0`, a tick refills the bucket. -/
theorem c4_no_lifecycle_on_tbucketq_witness :
    ((NewTBucketQ 2 0).run [QOp.getTok]).qcnt ≤ 0 ∧
    ((NewTBucketQ 2 0).run [QOp.getTok]).toks < ((NewTBucketQ 2 0).run [QOp.getTok]).burst ∧
    ((NewTBucketQ 2 0).run [QOp.getTok]).tick.toks = ((NewTBucketQ 2 0).run [QOp.getTok]).toks + 1 :=
  ⟨by decide, by decide, c4_no_lifecycle_on_tbucketq 2 0 [QOp.getTok] (by decide) (by decide)⟩

/-- The three lifecycle control calls of `tokenbucket.go`. -/
inductive CtrlOp where
  | pause
  | resume
  | close
deriving DecidableEq, Repr

/-- Dispatch a control call, returning the call's boolean result, the
new state, and the number of control signals the call sent. -/
def ctrlStep (tb : TBucket) : CtrlOp → Bool × TBucket × Nat
  | CtrlOp.pause => tb.Pause
  | CtrlOp.resume => tb.Resume
  | CtrlOp.close => tb.Close

/-- Number of `Close` calls in a control-call sequence that return
true. -/
def closeTrues : TBucket → List CtrlOp → Nat
  | _, [] => 0
  | tb, op :: rest =>
      (if op = CtrlOp.close ∧ (ctrlStep tb op).1 = true then 1 else 0) +
        closeTrues (ctrlStep tb op).2.1 rest

/-- Once closed, every control call fails with no effect and no
signal. -/
theorem ctrlStep_closed (tb : TBucket) (op : CtrlOp) (h : tb.closed = true) :
    ctrlStep tb op = (false, tb, 0) := by
  cases op <;>
    simp [ctrlStep, TBucket.Pause, TBucket.Resume, TBucket.Close, TBucket.IsClosed, h]

/-- On a closed bucket no `Close` in any sequence returns true. -/
theorem closeTrues_closed (ops : List CtrlOp) (tb : TBucket) (h : tb.closed = true) :
    closeTrues tb ops = 0 := by
  induction ops generalizing tb with
  | nil => rfl
  | cons op rest ih =>
      simp only [closeTrues, ctrlStep_closed tb op h]
      simpa using ih tb h

/-- `Pause` never changes the `closed` flag. -/
theorem pause_preserves_closed (tb : TBucket) : tb.Pause.2.1.closed = tb.closed := by
  simp only [TBucket.Pause]
  split <;> rfl

/-- `Resume` never changes the `closed` flag. -/
theorem resume_preserves_closed (tb : TBucket) : tb.Resume.2.1.closed = tb.closed := by
  simp only [TBucket.Resume]
  split <;> rfl

/-- From an open bucket, exactly one `Close` in a control-call sequence
returns true when one occurs at all. -/
theorem closeTrues_open (ops : List CtrlOp) (tb : TBucket) (h : tb.closed = false) :
    closeTrues tb ops = if CtrlOp.close ∈ ops then 1 else 0 := by
  induction ops generalizing tb with
  | nil => simp [closeTrues]
  | cons op rest ih =>
      cases op with
      | close =>
          have hstep : ctrlStep tb CtrlOp.close = (true, { tb with closed := true }, 1) := by
            simp [ctrlStep, TBucket.Close, h]
          simp only [closeTrues, hstep]
          rw [closeTrues_closed rest { tb with closed := true } rfl]
          simp
      | pause =>
          simp only [closeTrues]
          rw [ih (ctrlStep tb CtrlOp.pause).2.1 (by rw [show (ctrlStep tb CtrlOp.pause).2.1 = tb.Pause.2.1 from rfl, pause_preserves_closed]; exact h)]
          simp
      | resume =>
          simp only [closeTrues]
          rw [ih (ctrlStep tb CtrlOp.resume).2.1 (by rw [show (ctrlStep tb CtrlOp.resume).2.1 = tb.Resume.2.1 from rfl, resume_preserves_closed]; exact h)]
          simp

/-- C5: each successful `Pause`/`Resume`/`Close` flips exactly its own
control flag, sends exactly one control signal, and returns true; every
redundant control call returns false, sends no signal, and leaves the
state unchanged; the success conditions are exactly the CAS guards of
the source; and from a fresh bucket, `Close` returns true exactly once
over any control-call sequence that contains a `Close`, and never more
than once. -/
theorem c5_control_contract (tb : TBucket) (bsize burst : Int) (ops : List CtrlOp) :
    (tb.Pause.1 = true → tb.Pause.2 = ({ tb with paused := true }, 1)) ∧
    (tb.Pause.1 = false → tb.Pause.2 = (tb, 0)) ∧
    (tb.Pause.1 = (!tb.closed && !tb.paused)) ∧
    (tb.Resume.1 = true → tb.Resume.2 = ({ tb with paused := false }, 1)) ∧
    (tb.Resume.1 = false → tb.Resume.2 = (tb, 0)) ∧
    (tb.Resume.1 = (!tb.closed && tb.paused)) ∧
    (tb.Close.1 = true → tb.Close.2 = ({ tb with closed := true }, 1)) ∧
    (tb.Close.1 = false → tb.Close.2 = (tb, 0)) ∧
    (tb.Close.1 = !tb.closed) ∧
    closeTrues (NewBurstyTBucket bsize burst) ops = (if CtrlOp.close ∈ ops then 1 else 0) := by
  refine ⟨?_, ?_, ?_, ?_, ?_, ?_, ?_, ?_, ?_, closeTrues_open ops (NewBurstyTBucket bsize burst) rfl⟩ <;>
    cases hc : tb.closed <;> cases hp : tb.paused <;>
      simp [TBucket.Pause, TBucket.Resume, TBucket.Close, TBucket.IsClosed, hc, hp]

/-- Witness for C5 on a fresh open bucket and the sequence
`[close, close]`: the first close succeeds and the second fails. -/
theorem c5_control_contract_witness :
    ((NewTBucket 1).Pause.1 = true → (NewTBucket 1).Pause.2 = ({ NewTBucket 1 with paused := true }, 1)) ∧
    ((NewTBucket 1).Pause.1 = false → (NewTBucket 1).Pause.2 = (NewTBucket 1, 0)) ∧
    ((NewTBucket 1).Pause.1 = (!(NewTBucket 1).closed && !(NewTBucket 1).paused)) ∧
    ((NewTBucket 1).Resume.1 = true → (NewTBucket 1).Resume.2 = ({ NewTBucket 1 with paused := false }, 1)) ∧
    ((NewTBucket 1).Resume.1 = false → (NewTBucket 1).Resume.2 = (NewTBucket 1, 0)) ∧
    ((NewTBucket 1).Resume.1 = (!(NewTBucket 1).closed && (NewTBucket 1).paused)) ∧
    ((NewTBucket 1).Close.1 = true → (NewTBucket 1).Close.2 = ({ NewTBucket 1 with closed := true }, 1)) ∧
    ((NewTBucket 1).Close.1 = false → (NewTBucket 1).Close.2 = (NewTBucket 1, 0)) ∧
    ((NewTBucket 1).Close.1 = !(NewTBucket 1).closed) ∧
    closeTrues (NewBurstyTBucket 1 1) [CtrlOp.close, CtrlOp.close] =
      (if CtrlOp.close ∈ [CtrlOp.close, CtrlOp.close] then 1 else 0) :=
  c5_control_contract (NewTBucket 1) 1 1 [CtrlOp.close, CtrlOp.close]

end Ratelim
